import Mathlib

/-!
Verification of the ARM SPE trace decoder
(`tools/perf/util/arm-spe-decoder/arm-spe-decoder.c`).

The decoder core is embedded shallowly:
* machine integers (`u64`) are `Nat`, with masking made explicit exactly
  where the C code masks;
* the external packet decoder `arm_spe_get_packet` and the trace-data
  callback `get_trace` are parameters of the embedding (a packet-decoding
  function and a list of pending pull results respectively);
* the record-assembly loop `arm_spe_read_record` is a well-founded
  recursion over the number of bytes still reachable from the cursor.

Constants and accessor macros that live in the packet-decoder header
(`arm-spe-pkt-decoder.h`) and the decoder header (`arm-spe-decoder.h`)
are not part of the sources under verification; they are modelled from
the specification and are marked as such in their doc comments.
-/

set_option maxRecDepth 100000

namespace ArmSpe

/-- Modelled from the spec: the kernel bit-range mask `GENMASK_ULL(h, l)`
(bits `h` down to `l` set), used by the address-payload accessor macros of
the missing header `arm-spe-pkt-decoder.h`. -/
def GENMASK_ULL (h l : Nat) : Nat := (2 ^ (h - l + 1) - 1) <<< l

/-- Modelled from the spec: the kernel macro `BIT(n)`. -/
def BIT (n : Nat) : Nat := 1 <<< n

/-! ### Address packet header indices and payload accessors

Modelled from the spec (§4.2): the five address sub-kind selectors and the
NS / exception-level / address-byte accessors of the missing header
`arm-spe-pkt-decoder.h`.  The selector values and the bit positions
(NS at bit 63, EL at bits 62:61, address in bits 55:0) follow the Arm SPE
Address packet payload layout that the spec's rules refer to. -/

def SPE_ADDR_PKT_HDR_INDEX_INS : Nat := 0
def SPE_ADDR_PKT_HDR_INDEX_BRANCH : Nat := 1
def SPE_ADDR_PKT_HDR_INDEX_DATA_VIRT : Nat := 2
def SPE_ADDR_PKT_HDR_INDEX_DATA_PHYS : Nat := 3
def SPE_ADDR_PKT_HDR_INDEX_PREV_BRANCH : Nat := 4

def SPE_ADDR_PKT_EL0 : Nat := 0
def SPE_ADDR_PKT_EL1 : Nat := 1
def SPE_ADDR_PKT_EL2 : Nat := 2
def SPE_ADDR_PKT_EL3 : Nat := 3

def SPE_ADDR_PKT_ADDR_BYTE7_SHIFT : Nat := 56

/-- Modelled from the spec: non-secure (NS) bit of an address payload. -/
def SPE_ADDR_PKT_GET_NS (v : Nat) : Nat := (v &&& GENMASK_ULL 63 63) >>> 63

/-- Modelled from the spec: exception-level field of an address payload. -/
def SPE_ADDR_PKT_GET_EL (v : Nat) : Nat := (v &&& GENMASK_ULL 62 61) >>> 61

/-- Modelled from the spec: bytes 0..6 (bits 55:0) of an address payload. -/
def SPE_ADDR_PKT_ADDR_GET_BYTES_0_6 (v : Nat) : Nat := v &&& GENMASK_ULL 55 0

/-- Modelled from the spec: byte 6 (bits 55:48) of an address payload. -/
def SPE_ADDR_PKT_ADDR_GET_BYTE_6 (v : Nat) : Nat := (v &&& GENMASK_ULL 55 48) >>> 48

/-- The address calculator `arm_spe_calc_ip`.  The once-per-selector
diagnostic of the unsupported-selector branch is advisory logging with no
effect on the returned value and is not modelled. -/
def arm_spe_calc_ip (index : Nat) (payload : Nat) : Nat :=
  if index = SPE_ADDR_PKT_HDR_INDEX_INS ∨ index = SPE_ADDR_PKT_HDR_INDEX_BRANCH ∨
      index = SPE_ADDR_PKT_HDR_INDEX_PREV_BRANCH then
    let ns := SPE_ADDR_PKT_GET_NS payload
    let el := SPE_ADDR_PKT_GET_EL payload
    -- Clean highest byte
    let payload1 := SPE_ADDR_PKT_ADDR_GET_BYTES_0_6 payload
    -- Fill highest byte for EL1 or EL2 (VHE) mode
    if ns ≠ 0 ∧ (el = SPE_ADDR_PKT_EL1 ∨ el = SPE_ADDR_PKT_EL2) then
      payload1 ||| (0xff <<< SPE_ADDR_PKT_ADDR_BYTE7_SHIFT)
    else
      payload1
  else if index = SPE_ADDR_PKT_HDR_INDEX_DATA_VIRT then
    -- Clean tags
    let payload1 := SPE_ADDR_PKT_ADDR_GET_BYTES_0_6 payload
    let val := SPE_ADDR_PKT_ADDR_GET_BYTE_6 payload1
    if val &&& 0xf0 = 0xf0 then
      payload1 ||| (0xff <<< SPE_ADDR_PKT_ADDR_BYTE7_SHIFT)
    else
      payload1
  else if index = SPE_ADDR_PKT_HDR_INDEX_DATA_PHYS then
    -- Clean highest byte
    SPE_ADDR_PKT_ADDR_GET_BYTES_0_6 payload
  else
    payload

/-! ### Packet and record data model

The packet-kind enumeration and the packet / record structures live in the
missing headers `arm-spe-pkt-decoder.h` and `arm-spe-decoder.h`; they are
modelled from the spec (§3). -/

/-- Modelled from the spec: the closed set of packet kinds
(`enum arm_spe_pkt_type`). -/
inductive ArmSpePktType where
  | ARM_SPE_BAD
  | ARM_SPE_PAD
  | ARM_SPE_END
  | ARM_SPE_TIMESTAMP
  | ARM_SPE_ADDRESS
  | ARM_SPE_CONTEXT
  | ARM_SPE_COUNTER
  | ARM_SPE_EVENTS
  | ARM_SPE_OP_TYPE
  | ARM_SPE_DATA_SOURCE
deriving DecidableEq

/-- Modelled from the spec: one transient packet (`struct arm_spe_pkt`):
kind tag, sub-selector index, 64-bit raw payload. -/
structure ArmSpePkt where
  type : ArmSpePktType
  index : Nat
  payload : Nat
deriving DecidableEq

/-- Modelled from the spec: the assembled record (`struct arm_spe_record`). -/
structure ArmSpeRecord where
  type : Nat
  op : Nat
  latency : Nat
  from_ip : Nat
  to_ip : Nat
  timestamp : Nat
  virt_addr : Nat
  phys_addr : Nat
  prev_br_tgt : Nat
  context_id : Nat
  source : Nat
deriving DecidableEq

/-- Modelled from the spec: counter packet sub-selector for total latency
(`SPE_CNT_PKT_HDR_INDEX_TOTAL_LAT`); other counter sub-selectors are
ignored by the decoder, so only this value matters. -/
def SPE_CNT_PKT_HDR_INDEX_TOTAL_LAT : Nat := 0

/-! Modelled from the spec: the three op-type packet classes and the
payload-bit conditions of the missing header.  The exact payload bit
positions of the conditions are owned by the missing header; representative
distinct bits are used (no claim depends on which bits they are). -/

def SPE_OP_PKT_HDR_CLASS_OTHER : Nat := 0
def SPE_OP_PKT_HDR_CLASS_LD_ST_ATOMIC : Nat := 1
def SPE_OP_PKT_HDR_CLASS_BR_ERET : Nat := 2

def SPE_OP_PKT_ST : Nat := BIT 0
def SPE_OP_PKT_COND : Nat := BIT 0
def SPE_OP_PKT_INDIRECT_BRANCH : Nat := BIT 1
def SPE_OP_PKT_GCS : Nat := BIT 2

def SPE_OP_PKT_IS_LDST_SVE (v : Nat) : Bool := v &&& BIT 3 ≠ 0
def SPE_OP_PKT_IS_OTHER_SVE_OP (v : Nat) : Bool := v &&& BIT 7 ≠ 0
def SPE_OP_PKT_CR_BL (v : Nat) : Bool := (v >>> 4) &&& 3 = 1
def SPE_OP_PKT_CR_RET (v : Nat) : Bool := (v >>> 4) &&& 3 = 2
def SPE_OP_PKT_CR_NON_BL_RET (v : Nat) : Bool := (v >>> 4) &&& 3 = 3

/-! Modelled from the spec: the Events packet payload bit positions
(`EV_*`) and the record `op` / `type` bit flags (`enum arm_spe_op_type`,
`enum arm_spe_sample_type`) of the missing headers.  The flags are distinct
bits, as the spec requires; no claim depends on the particular positions. -/

def EV_L1D_ACCESS : Nat := 2
def EV_L1D_REFILL : Nat := 3
def EV_TLB_ACCESS : Nat := 4
def EV_TLB_WALK : Nat := 5
def EV_NOT_TAKEN : Nat := 6
def EV_MISPRED : Nat := 7
def EV_LLC_ACCESS : Nat := 8
def EV_LLC_MISS : Nat := 9
def EV_REMOTE_ACCESS : Nat := 10
def EV_TRANSACTIONAL : Nat := 16
def EV_PART_PRED : Nat := 17
def EV_EMPTY_PRED : Nat := 18

def ARM_SPE_L1D_ACCESS : Nat := BIT 0
def ARM_SPE_L1D_MISS : Nat := BIT 1
def ARM_SPE_LLC_ACCESS : Nat := BIT 2
def ARM_SPE_LLC_MISS : Nat := BIT 3
def ARM_SPE_TLB_ACCESS : Nat := BIT 4
def ARM_SPE_TLB_MISS : Nat := BIT 5
def ARM_SPE_BRANCH_MISS : Nat := BIT 6
def ARM_SPE_REMOTE_ACCESS : Nat := BIT 7
def ARM_SPE_SVE_PART_PRED : Nat := BIT 8
def ARM_SPE_SVE_EMPTY_PRED : Nat := BIT 9
def ARM_SPE_BRANCH_NOT_TAKEN : Nat := BIT 10
def ARM_SPE_IN_TXN : Nat := BIT 11

def ARM_SPE_OP_OTHER : Nat := BIT 0
def ARM_SPE_OP_LDST : Nat := BIT 1
def ARM_SPE_OP_BRANCH_ERET : Nat := BIT 2
def ARM_SPE_OP_SVE_OTHER : Nat := BIT 16
def ARM_SPE_OP_LD : Nat := BIT 17
def ARM_SPE_OP_ST : Nat := BIT 18
def ARM_SPE_OP_SVE_LDST : Nat := BIT 26
def ARM_SPE_OP_BR_COND : Nat := BIT 27
def ARM_SPE_OP_BR_INDIRECT : Nat := BIT 28
def ARM_SPE_OP_BR_GCS : Nat := BIT 29
def ARM_SPE_OP_BR_CR_BL : Nat := BIT 30
def ARM_SPE_OP_BR_CR_RET : Nat := BIT 31
def ARM_SPE_OP_BR_CR_NON_BL_RET : Nat := BIT 32

/-! ### Decoder instance and next-packet retrieval

The decoder state (`struct arm_spe_decoder`): the borrowed cursor
(`buf`/`len` become the byte list `buf`), the packet scratch space, and
the in-progress record.  The data source (`get_trace` callback plus its
opaque context) is modelled by `pulls`: the list of pull results the
callback will return, each a return code with a buffer; an exhausted list
means the source keeps reporting end-of-data (a zero-length pull).  The
external packet decoder `arm_spe_get_packet` is a parameter `gp`:
`gp bytes = some (n, pkt)` with `n ≠ 0` models a successful decode
consuming `n` bytes, anything else models "no valid packet here"
(return code ≤ 0). -/

structure ArmSpeDecoder where
  buf : List Nat
  pulls : List (Int × List Nat)
  packet : ArmSpePkt
  record : ArmSpeRecord
deriving DecidableEq

def EBADMSG : Int := 74

/-- `arm_spe_get_data`: pull the next buffer from the source. -/
def arm_spe_get_data (d : ArmSpeDecoder) : Int × ArmSpeDecoder :=
  match d.pulls with
  | [] => (0, { d with buf := [] })
  | (ret, b) :: rest =>
    if ret < 0 then (ret, { d with pulls := rest })
    else ((b.length : Int), { d with buf := b, pulls := rest })

/-- Number of bytes still reachable from the cursor (termination measure:
each buffer still to be pulled also pays one token for its pull). -/
def pendingBytes (d : ArmSpeDecoder) : Nat :=
  d.buf.length + (d.pulls.map (fun rb => rb.2.length + 1)).sum

theorem arm_spe_get_data_decreases (d : ArmSpeDecoder) (hb : d.buf = [])
    (hret : 0 < (arm_spe_get_data d).1) :
    pendingBytes (arm_spe_get_data d).2 < pendingBytes d := by
  cases hp : d.pulls with
  | nil =>
    simp [arm_spe_get_data, hp] at hret
  | cons hd rest =>
    obtain ⟨r, b⟩ := hd
    by_cases hr : r < 0
    · simp [arm_spe_get_data, hp, hr] at hret
      omega
    · simp [arm_spe_get_data, hp, hr] at hret ⊢
      simp [pendingBytes, hb, hp]

/-- `arm_spe_get_next_packet`: pull data while the cursor is empty, decode
one packet, resynchronize by one byte on packet-decoder failure
(`-EBADMSG`), and transparently skip Pad packets. -/
def arm_spe_get_next_packet (gp : List Nat → Option (Nat × ArmSpePkt))
    (d : ArmSpeDecoder) : Int × ArmSpeDecoder :=
  if hbuf : d.buf = [] then
    if hle : (arm_spe_get_data d).1 ≤ 0 then arm_spe_get_data d
    else arm_spe_get_next_packet gp (arm_spe_get_data d).2
  else
    match gp d.buf with
    | none => (-EBADMSG, { d with buf := d.buf.drop 1 })
    | some (n, p) =>
      if hn : n = 0 then (-EBADMSG, { d with buf := d.buf.drop 1 })
      else if p.type = ArmSpePktType.ARM_SPE_PAD then
        arm_spe_get_next_packet gp { d with buf := d.buf.drop n, packet := p }
      else (1, { d with buf := d.buf.drop n, packet := p })
termination_by pendingBytes d
decreasing_by
  · exact arm_spe_get_data_decreases d hbuf (by omega)
  · simp only [pendingBytes, List.length_drop]
    have hlen : 0 < d.buf.length := List.length_pos.mpr hbuf
    omega

/-! Branch equations for `arm_spe_get_next_packet`. -/

theorem gnp_empty_done (gp : List Nat → Option (Nat × ArmSpePkt)) (d : ArmSpeDecoder)
    (hbuf : d.buf = []) (hle : (arm_spe_get_data d).1 ≤ 0) :
    arm_spe_get_next_packet gp d = arm_spe_get_data d := by
  rw [arm_spe_get_next_packet.eq_def, dif_pos hbuf, dif_pos hle]

theorem gnp_empty_pull (gp : List Nat → Option (Nat × ArmSpePkt)) (d : ArmSpeDecoder)
    (hbuf : d.buf = []) (hle : ¬(arm_spe_get_data d).1 ≤ 0) :
    arm_spe_get_next_packet gp d
      = arm_spe_get_next_packet gp (arm_spe_get_data d).2 := by
  rw [arm_spe_get_next_packet.eq_def, dif_pos hbuf, dif_neg hle]

theorem gnp_malformed (gp : List Nat → Option (Nat × ArmSpePkt)) (d : ArmSpeDecoder)
    (hbuf : ¬d.buf = []) (hgp : gp d.buf = none) :
    arm_spe_get_next_packet gp d = (-EBADMSG, { d with buf := d.buf.drop 1 }) := by
  rw [arm_spe_get_next_packet.eq_def, dif_neg hbuf, hgp]

theorem gnp_malformed_zero (gp : List Nat → Option (Nat × ArmSpePkt)) (d : ArmSpeDecoder)
    (p : ArmSpePkt) (hbuf : ¬d.buf = []) (hgp : gp d.buf = some (0, p)) :
    arm_spe_get_next_packet gp d = (-EBADMSG, { d with buf := d.buf.drop 1 }) := by
  rw [arm_spe_get_next_packet.eq_def, dif_neg hbuf, hgp]
  simp

theorem gnp_pad (gp : List Nat → Option (Nat × ArmSpePkt)) (d : ArmSpeDecoder)
    (n : Nat) (p : ArmSpePkt) (hbuf : ¬d.buf = []) (hgp : gp d.buf = some (n, p))
    (hn : ¬n = 0) (hpad : p.type = ArmSpePktType.ARM_SPE_PAD) :
    arm_spe_get_next_packet gp d
      = arm_spe_get_next_packet gp { d with buf := d.buf.drop n, packet := p } := by
  rw [arm_spe_get_next_packet.eq_def, dif_neg hbuf, hgp]
  simp [hn, hpad]

theorem gnp_ok (gp : List Nat → Option (Nat × ArmSpePkt)) (d : ArmSpeDecoder)
    (n : Nat) (p : ArmSpePkt) (hbuf : ¬d.buf = []) (hgp : gp d.buf = some (n, p))
    (hn : ¬n = 0) (hpad : ¬p.type = ArmSpePktType.ARM_SPE_PAD) :
    arm_spe_get_next_packet gp d = (1, { d with buf := d.buf.drop n, packet := p }) := by
  rw [arm_spe_get_next_packet.eq_def, dif_neg hbuf, hgp]
  simp [hn, hpad]

/-- A successful retrieval strictly decreases the number of pending bytes
(the loop in `arm_spe_read_record` therefore terminates). -/
theorem gnp_decreases (gp : List Nat → Option (Nat × ArmSpePkt)) (d : ArmSpeDecoder) :
    0 < (arm_spe_get_next_packet gp d).1 →
      pendingBytes (arm_spe_get_next_packet gp d).2 < pendingBytes d := by
  induction d using arm_spe_get_next_packet.induct gp with
  | case1 x hbuf hle =>
    intro h
    rw [gnp_empty_done gp x hbuf hle] at h
    omega
  | case2 x hbuf hle ih =>
    intro h
    rw [gnp_empty_pull gp x hbuf hle] at h ⊢
    have h2 := ih h
    have h3 := arm_spe_get_data_decreases x hbuf (by omega)
    omega
  | case3 x hbuf hgp =>
    intro h
    rw [gnp_malformed gp x hbuf hgp] at h
    norm_num [EBADMSG] at h
  | case4 x hbuf p hgp =>
    intro h
    rw [gnp_malformed_zero gp x p hbuf hgp] at h
    norm_num [EBADMSG] at h
  | case5 x hbuf n p hgp hn hpad ih =>
    intro h
    rw [gnp_pad gp x n p hbuf hgp hn hpad] at h ⊢
    have h2 := ih h
    have h3 : pendingBytes { x with buf := x.buf.drop n, packet := p } < pendingBytes x := by
      simp only [pendingBytes, List.length_drop]
      have hlen : 0 < x.buf.length := List.length_pos.mpr hbuf
      omega
    omega
  | case6 x hbuf n p hgp hn hpad =>
    intro h
    rw [gnp_ok gp x n p hbuf hgp hn hpad]
    simp only [pendingBytes, List.length_drop]
    have hlen : 0 < x.buf.length := List.length_pos.mpr hbuf
    omega

/-! ### Record assembly -/

/-- Outcome of dispatching one packet inside the assembly loop: either a
`return v` leaving the loop, or fall-through to the next iteration. -/
inductive DispatchOut where
  | ret (v : Int)
  | cont
deriving DecidableEq

/-- `if c then a ||= k` — the conditional OR-accumulation statement shape
`if (cond) record->field |= flag;` of the C dispatch code. -/
def orIf (c : Prop) [Decidable c] (k a : Nat) : Nat :=
  if c then a ||| k else a

/-- One `switch (decoder->packet.type)` step of the assembly loop of
`arm_spe_read_record`: folds the packet into the record and decides
whether the loop returns (Timestamp, End, bad op class) or continues. -/
def arm_spe_dispatch (pkt : ArmSpePkt) (r : ArmSpeRecord) : DispatchOut × ArmSpeRecord :=
  let idx := pkt.index
  let payload := pkt.payload
  match pkt.type with
  | .ARM_SPE_TIMESTAMP => (.ret 1, { r with timestamp := payload })
  | .ARM_SPE_END => (.ret 1, r)
  | .ARM_SPE_ADDRESS =>
    let ip := arm_spe_calc_ip idx payload
    if idx = SPE_ADDR_PKT_HDR_INDEX_INS then (.cont, { r with from_ip := ip })
    else if idx = SPE_ADDR_PKT_HDR_INDEX_BRANCH then (.cont, { r with to_ip := ip })
    else if idx = SPE_ADDR_PKT_HDR_INDEX_DATA_VIRT then (.cont, { r with virt_addr := ip })
    else if idx = SPE_ADDR_PKT_HDR_INDEX_DATA_PHYS then (.cont, { r with phys_addr := ip })
    else if idx = SPE_ADDR_PKT_HDR_INDEX_PREV_BRANCH then (.cont, { r with prev_br_tgt := ip })
    else (.cont, r)
  | .ARM_SPE_COUNTER =>
    if idx = SPE_CNT_PKT_HDR_INDEX_TOTAL_LAT then (.cont, { r with latency := payload })
    else (.cont, r)
  | .ARM_SPE_CONTEXT => (.cont, { r with context_id := payload })
  | .ARM_SPE_OP_TYPE =>
    if idx = SPE_OP_PKT_HDR_CLASS_LD_ST_ATOMIC then
      (.cont, { r with
        op := orIf (SPE_OP_PKT_IS_LDST_SVE payload) ARM_SPE_OP_SVE_LDST
          ((r.op ||| ARM_SPE_OP_LDST) |||
            (if payload &&& SPE_OP_PKT_ST ≠ 0 then ARM_SPE_OP_ST else ARM_SPE_OP_LD)) })
    else if idx = SPE_OP_PKT_HDR_CLASS_OTHER then
      (.cont, { r with
        op := orIf (SPE_OP_PKT_IS_OTHER_SVE_OP payload) ARM_SPE_OP_SVE_OTHER
          (r.op ||| ARM_SPE_OP_OTHER) })
    else if idx = SPE_OP_PKT_HDR_CLASS_BR_ERET then
      (.cont, { r with
        op := orIf (SPE_OP_PKT_CR_NON_BL_RET payload) ARM_SPE_OP_BR_CR_NON_BL_RET
          (orIf (SPE_OP_PKT_CR_RET payload) ARM_SPE_OP_BR_CR_RET
            (orIf (SPE_OP_PKT_CR_BL payload) ARM_SPE_OP_BR_CR_BL
              (orIf (payload &&& SPE_OP_PKT_GCS ≠ 0) ARM_SPE_OP_BR_GCS
                (orIf (payload &&& SPE_OP_PKT_INDIRECT_BRANCH ≠ 0) ARM_SPE_OP_BR_INDIRECT
                  (orIf (payload &&& SPE_OP_PKT_COND ≠ 0) ARM_SPE_OP_BR_COND
                    (r.op ||| ARM_SPE_OP_BRANCH_ERET)))))) })
    else (.ret (-1), r)
  | .ARM_SPE_EVENTS =>
    (.cont, { r with
      type := orIf (payload &&& BIT EV_EMPTY_PRED ≠ 0) ARM_SPE_SVE_EMPTY_PRED
        (orIf (payload &&& BIT EV_PART_PRED ≠ 0) ARM_SPE_SVE_PART_PRED
          (orIf (payload &&& BIT EV_TRANSACTIONAL ≠ 0) ARM_SPE_IN_TXN
            (orIf (payload &&& BIT EV_NOT_TAKEN ≠ 0) ARM_SPE_BRANCH_NOT_TAKEN
              (orIf (payload &&& BIT EV_MISPRED ≠ 0) ARM_SPE_BRANCH_MISS
                (orIf (payload &&& BIT EV_REMOTE_ACCESS ≠ 0) ARM_SPE_REMOTE_ACCESS
                  (orIf (payload &&& BIT EV_LLC_ACCESS ≠ 0) ARM_SPE_LLC_ACCESS
                    (orIf (payload &&& BIT EV_LLC_MISS ≠ 0) ARM_SPE_LLC_MISS
                      (orIf (payload &&& BIT EV_TLB_ACCESS ≠ 0) ARM_SPE_TLB_ACCESS
                        (orIf (payload &&& BIT EV_TLB_WALK ≠ 0) ARM_SPE_TLB_MISS
                          (orIf (payload &&& BIT EV_L1D_ACCESS ≠ 0) ARM_SPE_L1D_ACCESS
                            (orIf (payload &&& BIT EV_L1D_REFILL ≠ 0) ARM_SPE_L1D_MISS
                              r.type))))))))))) })
  | .ARM_SPE_DATA_SOURCE => (.cont, { r with source := payload })
  | .ARM_SPE_BAD => (.cont, r)
  | .ARM_SPE_PAD => (.cont, r)

/-- The `memset(&decoder->record, 0, ...)` followed by
`decoder->record.context_id = (u64)-1` at the top of `arm_spe_read_record`. -/
def arm_spe_initial_record : ArmSpeRecord where
  type := 0
  op := 0
  latency := 0
  from_ip := 0
  to_ip := 0
  timestamp := 0
  virt_addr := 0
  phys_addr := 0
  prev_br_tgt := 0
  context_id := 2 ^ 64 - 1
  source := 0

/-- The `while (1)` assembly loop of `arm_spe_read_record`. -/
def arm_spe_read_record_go (gp : List Nat → Option (Nat × ArmSpePkt))
    (d : ArmSpeDecoder) : Int × ArmSpeDecoder :=
  if hle : (arm_spe_get_next_packet gp d).1 ≤ 0 then arm_spe_get_next_packet gp d
  else
    match arm_spe_dispatch (arm_spe_get_next_packet gp d).2.packet
        (arm_spe_get_next_packet gp d).2.record with
    | (DispatchOut.ret v, r) => (v, { (arm_spe_get_next_packet gp d).2 with record := r })
    | (DispatchOut.cont, r) =>
      arm_spe_read_record_go gp { (arm_spe_get_next_packet gp d).2 with record := r }
termination_by pendingBytes d
decreasing_by
  have h := gnp_decreases gp d (by omega)
  simpa [pendingBytes] using h

/-- The packets dispatched by the assembly loop started from state `d`
(verification artifact: the same recursion as `arm_spe_read_record_go`,
recording each packet handed to the dispatch switch). -/
def arm_spe_consumed (gp : List Nat → Option (Nat × ArmSpePkt))
    (d : ArmSpeDecoder) : List ArmSpePkt :=
  if hle : (arm_spe_get_next_packet gp d).1 ≤ 0 then []
  else
    match arm_spe_dispatch (arm_spe_get_next_packet gp d).2.packet
        (arm_spe_get_next_packet gp d).2.record with
    | (DispatchOut.ret _, _) => [(arm_spe_get_next_packet gp d).2.packet]
    | (DispatchOut.cont, r) =>
      (arm_spe_get_next_packet gp d).2.packet ::
        arm_spe_consumed gp { (arm_spe_get_next_packet gp d).2 with record := r }
termination_by pendingBytes d
decreasing_by
  have h := gnp_decreases gp d (by omega)
  simpa [pendingBytes] using h

/-- `arm_spe_read_record`: reset the record to its defaults, then run the
assembly loop. -/
def arm_spe_read_record (gp : List Nat → Option (Nat × ArmSpePkt))
    (d : ArmSpeDecoder) : Int × ArmSpeDecoder :=
  arm_spe_read_record_go gp { d with record := arm_spe_initial_record }

/-- `arm_spe_decode`: the public decode entry point.  Return value 1 is
`RecordReady`, 0 is `EndOfStream`, `-EBADMSG` is `MalformedPacket`, `-1`
is `ProtocolViolation`, and any other negative value is the propagated
`SourceFailure` code. -/
def arm_spe_decode (gp : List Nat → Option (Nat × ArmSpePkt))
    (d : ArmSpeDecoder) : Int × ArmSpeDecoder :=
  arm_spe_read_record gp d

/-! ### Bit-manipulation kit -/

theorem bytes_0_6_eq_mod (v : Nat) :
    SPE_ADDR_PKT_ADDR_GET_BYTES_0_6 v = v % 2 ^ 56 := by
  have h : GENMASK_ULL 55 0 = 2 ^ 56 - 1 := by
    simp [GENMASK_ULL]
  rw [SPE_ADDR_PKT_ADDR_GET_BYTES_0_6, h, Nat.and_pow_two_sub_one_eq_mod]

theorem and_mask_shiftRight (x k n : Nat) :
    (x &&& ((2 ^ k - 1) <<< n)) >>> n = (x >>> n) % 2 ^ k := by
  apply Nat.eq_of_testBit_eq
  intro i
  simp [Nat.testBit_shiftRight, Nat.testBit_and, Nat.testBit_shiftLeft,
    Nat.testBit_mod_two_pow, Nat.le_add_right, Nat.add_sub_cancel_left,
    Bool.and_comm]

theorem or_hi_byte (m : Nat) (hm : m < 2 ^ 56) :
    m ||| (0xff <<< SPE_ADDR_PKT_ADDR_BYTE7_SHIFT) = 2 ^ 56 * 0xff + m := by
  rw [SPE_ADDR_PKT_ADDR_BYTE7_SHIFT, Nat.shiftLeft_eq, Nat.mul_comm 0xff (2 ^ 56),
    Nat.mul_add_lt_is_or hm 0xff, Nat.or_comm]

theorem or_hi_byte_shiftRight (m : Nat) (hm : m < 2 ^ 56) :
    (m ||| (0xff <<< SPE_ADDR_PKT_ADDR_BYTE7_SHIFT)) >>> 56 = 0xff := by
  rw [or_hi_byte m hm, Nat.shiftRight_eq_div_pow,
    Nat.mul_add_div (Nat.two_pow_pos 56), Nat.div_eq_of_lt hm]

theorem or_hi_byte_mod (m : Nat) (hm : m < 2 ^ 56) :
    (m ||| (0xff <<< SPE_ADDR_PKT_ADDR_BYTE7_SHIFT)) % 2 ^ 56 = m := by
  rw [or_hi_byte m hm, Nat.mul_add_mod, Nat.mod_eq_of_lt hm]

theorem low_shiftRight (m : Nat) (hm : m < 2 ^ 56) : m >>> 56 = 0 := by
  rw [Nat.shiftRight_eq_div_pow, Nat.div_eq_of_lt hm]

theorem mod56_lt (v : Nat) : v % 2 ^ 56 < 2 ^ 56 :=
  Nat.mod_lt _ (Nat.two_pow_pos 56)

/-- On the five supported selectors the calculator returns the masked
payload, possibly with byte 7 filled with 0xff. -/
theorem calc_ip_shape (index payload : Nat)
    (hidx : index = SPE_ADDR_PKT_HDR_INDEX_INS ∨ index = SPE_ADDR_PKT_HDR_INDEX_BRANCH ∨
      index = SPE_ADDR_PKT_HDR_INDEX_DATA_VIRT ∨ index = SPE_ADDR_PKT_HDR_INDEX_DATA_PHYS ∨
      index = SPE_ADDR_PKT_HDR_INDEX_PREV_BRANCH) :
    arm_spe_calc_ip index payload = payload % 2 ^ 56 ∨
      arm_spe_calc_ip index payload
        = (payload % 2 ^ 56) ||| (0xff <<< SPE_ADDR_PKT_ADDR_BYTE7_SHIFT) := by
  rcases hidx with h | h | h | h | h <;> subst h <;>
    simp only [arm_spe_calc_ip, SPE_ADDR_PKT_HDR_INDEX_INS, SPE_ADDR_PKT_HDR_INDEX_BRANCH,
      SPE_ADDR_PKT_HDR_INDEX_DATA_VIRT, SPE_ADDR_PKT_HDR_INDEX_DATA_PHYS,
      SPE_ADDR_PKT_HDR_INDEX_PREV_BRANCH, bytes_0_6_eq_mod]
  · rw [if_pos (by norm_num)]; split_ifs <;> simp
  · rw [if_pos (by norm_num)]; split_ifs <;> simp
  · rw [if_pos trivial]; split_ifs <;> simp
  · rw [if_pos trivial]; exact Or.inl rfl
  · rw [if_pos (by norm_num)]; split_ifs <;> simp

theorem byte6_of_mod (payload : Nat) :
    SPE_ADDR_PKT_ADDR_GET_BYTE_6 (payload % 2 ^ 56) = payload / 2 ^ 48 % 2 ^ 8 := by
  have h : GENMASK_ULL 55 48 = (2 ^ 8 - 1) <<< 48 := rfl
  rw [SPE_ADDR_PKT_ADDR_GET_BYTE_6, h, and_mask_shiftRight, Nat.shiftRight_eq_div_pow,
    show (2 : Nat) ^ 56 = 2 ^ 48 * 2 ^ 8 by norm_num, Nat.mod_mul_right_div_self]
  exact Nat.mod_mod_of_dvd _ dvd_rfl

theorem nibble_cond_bridge :
    ∀ u, u < 256 → (u &&& 0xf0 = 0xf0 ↔ u / 16 = 15) := by decide

/-- The data-virtual branch condition of the code is exactly the spec's
"bits 55:52 of the payload equal 0xF". -/
theorem c6_cond (payload : Nat) :
    (SPE_ADDR_PKT_ADDR_GET_BYTE_6 (payload % 2 ^ 56) &&& 0xf0 = 0xf0)
      ↔ (payload >>> 52) % 16 = 0xf := by
  have hu : payload / 2 ^ 48 % 2 ^ 8 < 256 := by
    have h256 := Nat.mod_lt (payload / 2 ^ 48) (y := 2 ^ 8) (by norm_num)
    simpa using h256
  rw [byte6_of_mod, Nat.shiftRight_eq_div_pow, nibble_cond_bridge _ hu,
    show (2 : Nat) ^ 8 = 16 * 16 by norm_num, Nat.mod_mul_right_div_self,
    Nat.div_div_eq_div_mul, show (2 : Nat) ^ 48 * 16 = 2 ^ 52 by norm_num]

/-- C1: for every address-kind selector (one of the five address sub-kinds)
and every 64-bit payload, the address returned by `arm_spe_calc_ip` has its
top byte (bits 63:56) equal to 0x00 or 0xFF and its low 56 bits equal to
the low 56 bits of the input payload. -/
theorem claim_C1_calc_ip_canonical (index payload : Nat)
    (hidx : index = SPE_ADDR_PKT_HDR_INDEX_INS ∨ index = SPE_ADDR_PKT_HDR_INDEX_BRANCH ∨
      index = SPE_ADDR_PKT_HDR_INDEX_DATA_VIRT ∨ index = SPE_ADDR_PKT_HDR_INDEX_DATA_PHYS ∨
      index = SPE_ADDR_PKT_HDR_INDEX_PREV_BRANCH)
    (hp : payload < 2 ^ 64) :
    (arm_spe_calc_ip index payload >>> 56 = 0x00 ∨
        arm_spe_calc_ip index payload >>> 56 = 0xff) ∧
      arm_spe_calc_ip index payload % 2 ^ 56 = payload % 2 ^ 56 := by
  rcases calc_ip_shape index payload hidx with h | h <;> rw [h]
  · exact ⟨Or.inl (low_shiftRight _ (mod56_lt payload)),
      Nat.mod_eq_of_lt (mod56_lt payload)⟩
  · exact ⟨Or.inr (or_hi_byte_shiftRight _ (mod56_lt payload)),
      or_hi_byte_mod _ (mod56_lt payload)⟩

theorem claim_C1_calc_ip_canonical_witness :
    (arm_spe_calc_ip 0 3 >>> 56 = 0x00 ∨ arm_spe_calc_ip 0 3 >>> 56 = 0xff) ∧
      arm_spe_calc_ip 0 3 % 2 ^ 56 = 3 % 2 ^ 56 :=
  claim_C1_calc_ip_canonical 0 3 (Or.inl rfl) (by norm_num)

/-- C6: for a data-virtual Address packet, byte 6's high nibble
(bits 55:52) equal to 0xF gives top byte 0xFF, any other value gives top
byte 0x00, and the low 56 bits of the payload are preserved. -/
theorem claim_C6_data_virt (payload : Nat) (hp : payload < 2 ^ 64) :
    ((payload >>> 52) % 16 = 0xf →
      arm_spe_calc_ip SPE_ADDR_PKT_HDR_INDEX_DATA_VIRT payload >>> 56 = 0xff ∧
        arm_spe_calc_ip SPE_ADDR_PKT_HDR_INDEX_DATA_VIRT payload % 2 ^ 56
          = payload % 2 ^ 56) ∧
    ((payload >>> 52) % 16 ≠ 0xf →
      arm_spe_calc_ip SPE_ADDR_PKT_HDR_INDEX_DATA_VIRT payload >>> 56 = 0x00 ∧
        arm_spe_calc_ip SPE_ADDR_PKT_HDR_INDEX_DATA_VIRT payload % 2 ^ 56
          = payload % 2 ^ 56) := by
  have hcalc : arm_spe_calc_ip SPE_ADDR_PKT_HDR_INDEX_DATA_VIRT payload
      = if SPE_ADDR_PKT_ADDR_GET_BYTE_6 (payload % 2 ^ 56) &&& 0xf0 = 0xf0 then
          (payload % 2 ^ 56) ||| (0xff <<< SPE_ADDR_PKT_ADDR_BYTE7_SHIFT)
        else payload % 2 ^ 56 := by
    simp only [arm_spe_calc_ip, SPE_ADDR_PKT_HDR_INDEX_INS, SPE_ADDR_PKT_HDR_INDEX_BRANCH,
      SPE_ADDR_PKT_HDR_INDEX_DATA_VIRT, SPE_ADDR_PKT_HDR_INDEX_DATA_PHYS,
      SPE_ADDR_PKT_HDR_INDEX_PREV_BRANCH, bytes_0_6_eq_mod]
    rw [if_neg (by norm_num), if_pos trivial]
  constructor
  · intro h
    rw [hcalc, if_pos ((c6_cond payload).mpr h)]
    exact ⟨or_hi_byte_shiftRight _ (mod56_lt payload), or_hi_byte_mod _ (mod56_lt payload)⟩
  · intro h
    rw [hcalc, if_neg (fun hc => h ((c6_cond payload).mp hc))]
    exact ⟨low_shiftRight _ (mod56_lt payload), Nat.mod_eq_of_lt (mod56_lt payload)⟩

theorem claim_C6_data_virt_witness :
    arm_spe_calc_ip SPE_ADDR_PKT_HDR_INDEX_DATA_VIRT (0xf <<< 52) >>> 56 = 0xff ∧
      arm_spe_calc_ip SPE_ADDR_PKT_HDR_INDEX_DATA_VIRT (0xf <<< 52) % 2 ^ 56
        = (0xf <<< 52) % 2 ^ 56 :=
  (claim_C6_data_virt (0xf <<< 52) (by decide)).1 (by decide)

/-- C10: for an instruction, branch-target, or prev-branch-target Address
packet whose NS bit is 1 and whose exception level is EL3, the computed
address has top byte 0x00 (the 0xFF fill applies only to EL1/EL2); the low
56 bits are preserved. -/
theorem claim_C10_ns1_el3_top_zero (index payload : Nat)
    (hidx : index = SPE_ADDR_PKT_HDR_INDEX_INS ∨ index = SPE_ADDR_PKT_HDR_INDEX_BRANCH ∨
      index = SPE_ADDR_PKT_HDR_INDEX_PREV_BRANCH)
    (hp : payload < 2 ^ 64)
    (hns : SPE_ADDR_PKT_GET_NS payload = 1)
    (hel : SPE_ADDR_PKT_GET_EL payload = SPE_ADDR_PKT_EL3) :
    arm_spe_calc_ip index payload >>> 56 = 0x00 ∧
      arm_spe_calc_ip index payload % 2 ^ 56 = payload % 2 ^ 56 := by
  have hcond : ¬(SPE_ADDR_PKT_GET_NS payload ≠ 0 ∧
      (SPE_ADDR_PKT_GET_EL payload = SPE_ADDR_PKT_EL1 ∨
        SPE_ADDR_PKT_GET_EL payload = SPE_ADDR_PKT_EL2)) := by
    rw [hel]
    simp [SPE_ADDR_PKT_EL1, SPE_ADDR_PKT_EL2, SPE_ADDR_PKT_EL3]
  have hcalc : arm_spe_calc_ip index payload = payload % 2 ^ 56 := by
    rcases hidx with h | h | h <;> subst h <;>
      simp only [arm_spe_calc_ip, SPE_ADDR_PKT_HDR_INDEX_INS, SPE_ADDR_PKT_HDR_INDEX_BRANCH,
        SPE_ADDR_PKT_HDR_INDEX_DATA_VIRT, SPE_ADDR_PKT_HDR_INDEX_DATA_PHYS,
        SPE_ADDR_PKT_HDR_INDEX_PREV_BRANCH, bytes_0_6_eq_mod] <;>
      rw [if_pos (by norm_num), if_neg hcond]
  rw [hcalc]
  exact ⟨low_shiftRight _ (mod56_lt payload), Nat.mod_eq_of_lt (mod56_lt payload)⟩

theorem claim_C10_ns1_el3_top_zero_witness :
    arm_spe_calc_ip 0 0xe000000000000005 >>> 56 = 0x00 ∧
      arm_spe_calc_ip 0 0xe000000000000005 % 2 ^ 56 = 0xe000000000000005 % 2 ^ 56 :=
  claim_C10_ns1_el3_top_zero 0 0xe000000000000005 (Or.inl rfl) (by decide)
    (by decide) (by decide)


theorem get_data_record (d : ArmSpeDecoder) :
    (arm_spe_get_data d).2.record = d.record := by
  rcases hp : d.pulls with _ | ⟨⟨r, b⟩, rest⟩ <;> simp [arm_spe_get_data, hp] <;>
    split_ifs <;> rfl

/-- Next-packet retrieval never touches the in-progress record. -/
theorem gnp_record (gp : List Nat → Option (Nat × ArmSpePkt)) (d : ArmSpeDecoder) :
    (arm_spe_get_next_packet gp d).2.record = d.record := by
  induction d using arm_spe_get_next_packet.induct gp with
  | case1 x hbuf hle =>
    rw [gnp_empty_done gp x hbuf hle]
    exact get_data_record x
  | case2 x hbuf hle ih =>
    rw [gnp_empty_pull gp x hbuf hle, ih]
    exact get_data_record x
  | case3 x hbuf hgp => rw [gnp_malformed gp x hbuf hgp]
  | case4 x hbuf p hgp => rw [gnp_malformed_zero gp x p hbuf hgp]
  | case5 x hbuf n p hgp hn hpad ih => rw [gnp_pad gp x n p hbuf hgp hn hpad, ih]
  | case6 x hbuf n p hgp hn hpad => rw [gnp_ok gp x n p hbuf hgp hn hpad]

/-! Branch equations for the assembly loop and its consumed-packet trace. -/

theorem go_done (gp : List Nat → Option (Nat × ArmSpePkt)) (d : ArmSpeDecoder)
    (hle : (arm_spe_get_next_packet gp d).1 ≤ 0) :
    arm_spe_read_record_go gp d = arm_spe_get_next_packet gp d := by
  rw [arm_spe_read_record_go.eq_def, dif_pos hle]

theorem go_ret (gp : List Nat → Option (Nat × ArmSpePkt)) (d : ArmSpeDecoder)
    (v : Int) (r : ArmSpeRecord) (hgt : ¬(arm_spe_get_next_packet gp d).1 ≤ 0)
    (hd : arm_spe_dispatch (arm_spe_get_next_packet gp d).2.packet
        (arm_spe_get_next_packet gp d).2.record = (DispatchOut.ret v, r)) :
    arm_spe_read_record_go gp d
      = (v, { (arm_spe_get_next_packet gp d).2 with record := r }) := by
  rw [arm_spe_read_record_go.eq_def, dif_neg hgt, hd]

theorem go_cont (gp : List Nat → Option (Nat × ArmSpePkt)) (d : ArmSpeDecoder)
    (r : ArmSpeRecord) (hgt : ¬(arm_spe_get_next_packet gp d).1 ≤ 0)
    (hd : arm_spe_dispatch (arm_spe_get_next_packet gp d).2.packet
        (arm_spe_get_next_packet gp d).2.record = (DispatchOut.cont, r)) :
    arm_spe_read_record_go gp d
      = arm_spe_read_record_go gp
          { (arm_spe_get_next_packet gp d).2 with record := r } := by
  rw [arm_spe_read_record_go.eq_def, dif_neg hgt, hd]

theorem consumed_done (gp : List Nat → Option (Nat × ArmSpePkt)) (d : ArmSpeDecoder)
    (hle : (arm_spe_get_next_packet gp d).1 ≤ 0) :
    arm_spe_consumed gp d = [] := by
  rw [arm_spe_consumed.eq_def, dif_pos hle]

theorem consumed_ret (gp : List Nat → Option (Nat × ArmSpePkt)) (d : ArmSpeDecoder)
    (v : Int) (r : ArmSpeRecord) (hgt : ¬(arm_spe_get_next_packet gp d).1 ≤ 0)
    (hd : arm_spe_dispatch (arm_spe_get_next_packet gp d).2.packet
        (arm_spe_get_next_packet gp d).2.record = (DispatchOut.ret v, r)) :
    arm_spe_consumed gp d = [(arm_spe_get_next_packet gp d).2.packet] := by
  rw [arm_spe_consumed.eq_def, dif_neg hgt, hd]

theorem consumed_cont (gp : List Nat → Option (Nat × ArmSpePkt)) (d : ArmSpeDecoder)
    (r : ArmSpeRecord) (hgt : ¬(arm_spe_get_next_packet gp d).1 ≤ 0)
    (hd : arm_spe_dispatch (arm_spe_get_next_packet gp d).2.packet
        (arm_spe_get_next_packet gp d).2.record = (DispatchOut.cont, r)) :
    arm_spe_consumed gp d
      = (arm_spe_get_next_packet gp d).2.packet ::
          arm_spe_consumed gp { (arm_spe_get_next_packet gp d).2 with record := r } := by
  rw [arm_spe_consumed.eq_def, dif_neg hgt, hd]

/-! Dispatch facts. -/

theorem dispatch_context (i pl : Nat) (r : ArmSpeRecord) :
    arm_spe_dispatch ⟨ArmSpePktType.ARM_SPE_CONTEXT, i, pl⟩ r
      = (DispatchOut.cont, { r with context_id := pl }) := by
  simp [arm_spe_dispatch]

theorem dispatch_preserves_context_id (pkt : ArmSpePkt) (r : ArmSpeRecord)
    (h : pkt.type ≠ ArmSpePktType.ARM_SPE_CONTEXT) :
    ((arm_spe_dispatch pkt r).2).context_id = r.context_id := by
  rcases pkt with ⟨pt, idx, pl⟩
  cases pt <;> simp_all [arm_spe_dispatch] <;> split_ifs <;> rfl

theorem dispatch_bad_op_class (pkt : ArmSpePkt) (r : ArmSpeRecord)
    (ht : pkt.type = ArmSpePktType.ARM_SPE_OP_TYPE)
    (h0 : pkt.index ≠ SPE_OP_PKT_HDR_CLASS_LD_ST_ATOMIC)
    (h1 : pkt.index ≠ SPE_OP_PKT_HDR_CLASS_OTHER)
    (h2 : pkt.index ≠ SPE_OP_PKT_HDR_CLASS_BR_ERET) :
    arm_spe_dispatch pkt r = (DispatchOut.ret (-1), r) := by
  rcases pkt with ⟨pt, idx, pl⟩
  cases ht
  simp_all [arm_spe_dispatch]

theorem dispatch_timestamp (i pl : Nat) (r : ArmSpeRecord) :
    arm_spe_dispatch ⟨ArmSpePktType.ARM_SPE_TIMESTAMP, i, pl⟩ r
      = (DispatchOut.ret 1, { r with timestamp := pl }) := by
  simp [arm_spe_dispatch]

/-! Monotonicity of the OR-accumulating dispatch updates. -/

theorem or_testBit_mono (a b i : Nat) (h : a.testBit i = true) :
    (a ||| b).testBit i = true := by
  simp [Nat.testBit_or, h]

theorem orIf_testBit_mono (c : Prop) [Decidable c] (k a i : Nat)
    (h : a.testBit i = true) : (orIf c k a).testBit i = true := by
  unfold orIf
  split
  · exact or_testBit_mono a k i h
  · exact h

/-! The context-id invariant of the assembly loop. -/

theorem go_context_invariant (gp : List Nat → Option (Nat × ArmSpePkt)) (v : Nat) :
    ∀ d : ArmSpeDecoder,
      (∀ p ∈ arm_spe_consumed gp d,
        p.type = ArmSpePktType.ARM_SPE_CONTEXT → p.payload = v) →
      d.record.context_id = v →
      ((arm_spe_read_record_go gp d).2).record.context_id = v := by
  intro d
  induction d using arm_spe_read_record_go.induct gp with
  | case1 x hle =>
    intro hall hstart
    rw [go_done gp x hle, gnp_record gp x]
    exact hstart
  | case2 x hgt v' r hd =>
    intro hall hstart
    rw [go_ret gp x v' r hgt hd]
    show r.context_id = v
    by_cases hctx :
        (arm_spe_get_next_packet gp x).2.packet.type = ArmSpePktType.ARM_SPE_CONTEXT
    · rcases hpkt : (arm_spe_get_next_packet gp x).2.packet with ⟨pt, pi, pl⟩
      rw [hpkt] at hd hctx
      cases hctx
      rw [dispatch_context pi pl] at hd
      simp at hd
    · have hpres := dispatch_preserves_context_id _ (arm_spe_get_next_packet gp x).2.record hctx
      rw [hd] at hpres
      rw [hpres, gnp_record gp x]
      exact hstart
  | case3 x hgt r hd ih =>
    intro hall hstart
    rw [go_cont gp x r hgt hd]
    apply ih
    · intro p hp hptype
      refine hall p ?_ hptype
      rw [consumed_cont gp x r hgt hd]
      exact List.mem_cons_of_mem _ hp
    · show r.context_id = v
      by_cases hctx :
          (arm_spe_get_next_packet gp x).2.packet.type = ArmSpePktType.ARM_SPE_CONTEXT
      · have hpl := hall (arm_spe_get_next_packet gp x).2.packet
          (by rw [consumed_cont gp x r hgt hd]; exact List.mem_cons_self _ _) hctx
        rcases hpkt : (arm_spe_get_next_packet gp x).2.packet with ⟨pt, pi, pl⟩
        rw [hpkt] at hd hctx hpl
        cases hctx
        rw [dispatch_context pi pl] at hd
        injection hd with h1 h2
        rw [← h2]
        simpa using hpl
      · have hpres := dispatch_preserves_context_id _ (arm_spe_get_next_packet gp x).2.record hctx
        rw [hd] at hpres
        rw [hpres, gnp_record gp x]
        exact hstart

/-- An op-type packet with an unknown class among the dispatched packets
forces the decode call to return `-1` (`ProtocolViolation`). -/
theorem go_bad_op (gp : List Nat → Option (Nat × ArmSpePkt)) :
    ∀ (d : ArmSpeDecoder) (p : ArmSpePkt), p ∈ arm_spe_consumed gp d →
      p.type = ArmSpePktType.ARM_SPE_OP_TYPE →
      p.index ≠ SPE_OP_PKT_HDR_CLASS_LD_ST_ATOMIC →
      p.index ≠ SPE_OP_PKT_HDR_CLASS_OTHER →
      p.index ≠ SPE_OP_PKT_HDR_CLASS_BR_ERET →
      (arm_spe_read_record_go gp d).1 = -1 := by
  intro d
  induction d using arm_spe_read_record_go.induct gp with
  | case1 x hle =>
    intro p hp _ _ _ _
    rw [consumed_done gp x hle] at hp
    simp at hp
  | case2 x hgt v r hd =>
    intro p hp ht h0 h1 h2
    rw [consumed_ret gp x v r hgt hd] at hp
    simp at hp
    subst hp
    have hbad := dispatch_bad_op_class _ (arm_spe_get_next_packet gp x).2.record ht h0 h1 h2
    rw [hd] at hbad
    injection hbad with hb1 hb2
    injection hb1 with hv
    rw [go_ret gp x v r hgt hd, hv]
  | case3 x hgt r hd ih =>
    intro p hp ht h0 h1 h2
    rw [consumed_cont gp x r hgt hd] at hp
    rcases List.mem_cons.mp hp with heq | hmem
    · subst heq
      have hbad := dispatch_bad_op_class _ (arm_spe_get_next_packet gp x).2.record ht h0 h1 h2
      rw [hd] at hbad
      simp at hbad
    · rw [go_cont gp x r hgt hd]
      exact ih p hmem ht h0 h1 h2

/-- A cursor holding only Pad packets, with the source exhausted, makes
next-packet retrieval report end-of-stream (return 0). -/
theorem gnp_pads_only (gp : List Nat → Option (Nat × ArmSpePkt)) :
    ∀ d : ArmSpeDecoder, d.pulls = [] →
      (∀ k, k < d.buf.length → ∃ n p, gp (d.buf.drop k) = some (n, p) ∧ n ≠ 0 ∧
        p.type = ArmSpePktType.ARM_SPE_PAD) →
      (arm_spe_get_next_packet gp d).1 = 0 := by
  intro d
  induction d using arm_spe_get_next_packet.induct gp with
  | case1 x hbuf hle =>
    intro hp _
    rw [gnp_empty_done gp x hbuf hle]
    simp [arm_spe_get_data, hp]
  | case2 x hbuf hle ih =>
    intro hp _
    exact absurd (by simp [arm_spe_get_data, hp] : (arm_spe_get_data x).1 ≤ 0) hle
  | case3 x hbuf hgp =>
    intro hp hpadH
    obtain ⟨n, q, hsome, hn, hq⟩ := hpadH 0 (List.length_pos.mpr hbuf)
    rw [List.drop_zero, hgp] at hsome
    cases hsome
  | case4 x hbuf p hgp =>
    intro hp hpadH
    obtain ⟨n, q, hsome, hn, hq⟩ := hpadH 0 (List.length_pos.mpr hbuf)
    rw [List.drop_zero, hgp] at hsome
    injection hsome with h
    injection h with h1 h2
    exact absurd h1.symm hn
  | case5 x hbuf n p hgp hn hpad ih =>
    intro hp hpadH
    rw [gnp_pad gp x n p hbuf hgp hn hpad]
    apply ih
    · exact hp
    · intro k hk
      have hlt : k + n < x.buf.length := by
        simp only [List.length_drop] at hk
        omega
      obtain ⟨m, q, h1, h2, h3⟩ := hpadH (k + n) hlt
      refine ⟨m, q, ?_, h2, h3⟩
      rw [show (({ x with buf := x.buf.drop n, packet := p } : ArmSpeDecoder).buf.drop k)
        = x.buf.drop (k + n) by rw [show ({ x with buf := x.buf.drop n, packet := p } :
          ArmSpeDecoder).buf = x.buf.drop n from rfl, List.drop_drop, Nat.add_comm n k]]
      exact h1
  | case6 x hbuf n p hgp hn hpad =>
    intro hp hpadH
    obtain ⟨m, q, hsome, hm, hq⟩ := hpadH 0 (List.length_pos.mpr hbuf)
    rw [List.drop_zero, hgp] at hsome
    injection hsome with h
    injection h with h1 h2
    rw [← h2] at hq
    exact absurd hq hpad

/-! Evaluations of `arm_spe_calc_ip` under the NS/EL hypotheses. -/

theorem calc_ip_fill (index payload : Nat)
    (hidx : index = SPE_ADDR_PKT_HDR_INDEX_INS ∨ index = SPE_ADDR_PKT_HDR_INDEX_BRANCH ∨
      index = SPE_ADDR_PKT_HDR_INDEX_PREV_BRANCH)
    (hns : SPE_ADDR_PKT_GET_NS payload = 1)
    (hel : SPE_ADDR_PKT_GET_EL payload = SPE_ADDR_PKT_EL1 ∨
      SPE_ADDR_PKT_GET_EL payload = SPE_ADDR_PKT_EL2) :
    arm_spe_calc_ip index payload
      = (payload % 2 ^ 56) ||| (0xff <<< SPE_ADDR_PKT_ADDR_BYTE7_SHIFT) := by
  have hcond : SPE_ADDR_PKT_GET_NS payload ≠ 0 ∧
      (SPE_ADDR_PKT_GET_EL payload = SPE_ADDR_PKT_EL1 ∨
        SPE_ADDR_PKT_GET_EL payload = SPE_ADDR_PKT_EL2) := ⟨by rw [hns]; norm_num, hel⟩
  rcases hidx with h | h | h <;> subst h <;>
    simp only [arm_spe_calc_ip, SPE_ADDR_PKT_HDR_INDEX_INS, SPE_ADDR_PKT_HDR_INDEX_BRANCH,
      SPE_ADDR_PKT_HDR_INDEX_DATA_VIRT, SPE_ADDR_PKT_HDR_INDEX_DATA_PHYS,
      SPE_ADDR_PKT_HDR_INDEX_PREV_BRANCH, bytes_0_6_eq_mod] <;>
    rw [if_pos (by norm_num), if_pos hcond]

theorem calc_ip_nofill (index payload : Nat)
    (hidx : index = SPE_ADDR_PKT_HDR_INDEX_INS ∨ index = SPE_ADDR_PKT_HDR_INDEX_BRANCH ∨
      index = SPE_ADDR_PKT_HDR_INDEX_PREV_BRANCH)
    (h : SPE_ADDR_PKT_GET_NS payload = 0 ∨
      (SPE_ADDR_PKT_GET_NS payload = 1 ∧ SPE_ADDR_PKT_GET_EL payload = SPE_ADDR_PKT_EL0)) :
    arm_spe_calc_ip index payload = payload % 2 ^ 56 := by
  have hcond : ¬(SPE_ADDR_PKT_GET_NS payload ≠ 0 ∧
      (SPE_ADDR_PKT_GET_EL payload = SPE_ADDR_PKT_EL1 ∨
        SPE_ADDR_PKT_GET_EL payload = SPE_ADDR_PKT_EL2)) := by
    rcases h with h | ⟨h1, h2⟩
    · exact fun hc => hc.1 h
    · intro hc
      rcases hc.2 with he | he <;> rw [h2] at he <;>
        norm_num [SPE_ADDR_PKT_EL0, SPE_ADDR_PKT_EL1, SPE_ADDR_PKT_EL2] at he
  rcases hidx with h' | h' | h' <;> subst h' <;>
    simp only [arm_spe_calc_ip, SPE_ADDR_PKT_HDR_INDEX_INS, SPE_ADDR_PKT_HDR_INDEX_BRANCH,
      SPE_ADDR_PKT_HDR_INDEX_DATA_VIRT, SPE_ADDR_PKT_HDR_INDEX_DATA_PHYS,
      SPE_ADDR_PKT_HDR_INDEX_PREV_BRANCH, bytes_0_6_eq_mod] <;>
    rw [if_pos (by norm_num), if_neg hcond]

theorem dispatch_address_ins (pl : Nat) (r : ArmSpeRecord) :
    arm_spe_dispatch ⟨ArmSpePktType.ARM_SPE_ADDRESS, SPE_ADDR_PKT_HDR_INDEX_INS, pl⟩ r
      = (DispatchOut.cont,
          { r with from_ip := arm_spe_calc_ip SPE_ADDR_PKT_HDR_INDEX_INS pl }) := by
  simp [arm_spe_dispatch]

/-- C2: for an instruction, branch-target, or prev-branch-target Address
packet, NS=1 with EL1/EL2 gives top byte 0xFF; NS=0 (any EL) or NS=1 with
EL0 gives top byte 0x00; the low 56 bits always equal the payload's low 56
bits.  In particular an instruction-kind packet with NS=1, EL=EL1 stores
`from_ip = (payload mod 2^56) ||| (0xFF <<< 56)`. -/
theorem claim_C2_ins_branch_addr (index payload : Nat) (r : ArmSpeRecord)
    (hidx : index = SPE_ADDR_PKT_HDR_INDEX_INS ∨ index = SPE_ADDR_PKT_HDR_INDEX_BRANCH ∨
      index = SPE_ADDR_PKT_HDR_INDEX_PREV_BRANCH)
    (hp : payload < 2 ^ 64) :
    (SPE_ADDR_PKT_GET_NS payload = 1 ∧
        (SPE_ADDR_PKT_GET_EL payload = SPE_ADDR_PKT_EL1 ∨
          SPE_ADDR_PKT_GET_EL payload = SPE_ADDR_PKT_EL2) →
      arm_spe_calc_ip index payload >>> 56 = 0xff ∧
        arm_spe_calc_ip index payload % 2 ^ 56 = payload % 2 ^ 56) ∧
    (SPE_ADDR_PKT_GET_NS payload = 0 ∨
        (SPE_ADDR_PKT_GET_NS payload = 1 ∧
          SPE_ADDR_PKT_GET_EL payload = SPE_ADDR_PKT_EL0) →
      arm_spe_calc_ip index payload >>> 56 = 0x00 ∧
        arm_spe_calc_ip index payload % 2 ^ 56 = payload % 2 ^ 56) ∧
    (SPE_ADDR_PKT_GET_NS payload = 1 →
      SPE_ADDR_PKT_GET_EL payload = SPE_ADDR_PKT_EL1 →
      ((arm_spe_dispatch ⟨ArmSpePktType.ARM_SPE_ADDRESS, SPE_ADDR_PKT_HDR_INDEX_INS,
          payload⟩ r).2).from_ip = payload % 2 ^ 56 ||| (0xff <<< 56)) := by
  refine ⟨?_, ?_, ?_⟩
  · rintro ⟨hns, hel⟩
    rw [calc_ip_fill index payload hidx hns hel]
    exact ⟨or_hi_byte_shiftRight _ (mod56_lt payload), or_hi_byte_mod _ (mod56_lt payload)⟩
  · intro h
    rw [calc_ip_nofill index payload hidx h]
    exact ⟨low_shiftRight _ (mod56_lt payload), Nat.mod_eq_of_lt (mod56_lt payload)⟩
  · intro hns hel
    rw [dispatch_address_ins payload r]
    show arm_spe_calc_ip SPE_ADDR_PKT_HDR_INDEX_INS payload = _
    rw [calc_ip_fill _ payload (Or.inl rfl) hns (Or.inl hel)]
    rfl

theorem claim_C2_ins_branch_addr_witness :
    arm_spe_calc_ip 0 0xa000000000001234 >>> 56 = 0xff ∧
      arm_spe_calc_ip 0 0xa000000000001234 % 2 ^ 56 = 0xa000000000001234 % 2 ^ 56 ∧
      ((arm_spe_dispatch ⟨ArmSpePktType.ARM_SPE_ADDRESS, SPE_ADDR_PKT_HDR_INDEX_INS,
          0xa000000000001234⟩ arm_spe_initial_record).2).from_ip
        = 0xa000000000001234 % 2 ^ 56 ||| (0xff <<< 56) := by
  have h := claim_C2_ins_branch_addr 0 0xa000000000001234 arm_spe_initial_record
    (Or.inl rfl) (by decide)
  exact ⟨(h.1 ⟨by decide, Or.inl (by decide)⟩).1, (h.1 ⟨by decide, Or.inl (by decide)⟩).2,
    h.2.2 (by decide) (by decide)⟩

/-- C5: within a decode call the op and type bitmasks are monotone: every
dispatch step only ORs bits into `op` and `type`, never clearing a
previously set bit. -/
theorem claim_C5_op_type_monotone (pkt : ArmSpePkt) (r : ArmSpeRecord) (i : Nat) :
    (r.op.testBit i = true → ((arm_spe_dispatch pkt r).2).op.testBit i = true) ∧
    (r.type.testBit i = true → ((arm_spe_dispatch pkt r).2).type.testBit i = true) := by
  rcases pkt with ⟨pt, idx, pl⟩
  cases pt <;> constructor <;> intro h <;>
    simp only [arm_spe_dispatch] <;>
    (try split_ifs) <;>
    first
      | exact h
      | (repeat first
          | exact h
          | apply orIf_testBit_mono
          | apply or_testBit_mono)

theorem claim_C5_op_type_monotone_witness :
    ((arm_spe_initial_record.op.testBit 0 = true →
        ((arm_spe_dispatch ⟨ArmSpePktType.ARM_SPE_EVENTS, 0, 0⟩
          arm_spe_initial_record).2).op.testBit 0 = true) ∧
      (arm_spe_initial_record.type.testBit 0 = true →
        ((arm_spe_dispatch ⟨ArmSpePktType.ARM_SPE_EVENTS, 0, 0⟩
          arm_spe_initial_record).2).type.testBit 0 = true)) :=
  claim_C5_op_type_monotone ⟨ArmSpePktType.ARM_SPE_EVENTS, 0, 0⟩ arm_spe_initial_record 0

/-- C4: if the decode call dispatches an OpType packet whose class
sub-selector is none of load-store-atomic, other, branch-or-eret, it
returns `-1` (`ProtocolViolation`), not `1` (`RecordReady`), so the record
fields accumulated earlier in the call are never exposed (the caller reads
the record only on return value 1). -/
theorem claim_C4_bad_op_class (gp : List Nat → Option (Nat × ArmSpePkt))
    (d : ArmSpeDecoder) (p : ArmSpePkt)
    (hmem : p ∈ arm_spe_consumed gp { d with record := arm_spe_initial_record })
    (ht : p.type = ArmSpePktType.ARM_SPE_OP_TYPE)
    (hcls : ¬(p.index = SPE_OP_PKT_HDR_CLASS_LD_ST_ATOMIC ∨
      p.index = SPE_OP_PKT_HDR_CLASS_OTHER ∨
      p.index = SPE_OP_PKT_HDR_CLASS_BR_ERET)) :
    (arm_spe_decode gp d).1 = -1 ∧ (arm_spe_decode gp d).1 ≠ 1 := by
  push_neg at hcls
  obtain ⟨h0, h1, h2⟩ := hcls
  have h : (arm_spe_decode gp d).1 = -1 :=
    go_bad_op gp { d with record := arm_spe_initial_record } p hmem ht h0 h1 h2
  exact ⟨h, by rw [h]; norm_num⟩

/-- C7: a stream holding only Pad packets, followed by the source
reporting end-of-data (a zero-length pull), makes the decode call return
`0` (`EndOfStream`), not `1` (`RecordReady`): no record is produced, and
Pad packets are skipped inside retrieval without reaching dispatch. -/
theorem claim_C7_pads_then_eos (gp : List Nat → Option (Nat × ArmSpePkt))
    (d : ArmSpeDecoder) (hpulls : d.pulls = [])
    (hpads : ∀ k, k < d.buf.length → ∃ n p, gp (d.buf.drop k) = some (n, p) ∧ n ≠ 0 ∧
      p.type = ArmSpePktType.ARM_SPE_PAD) :
    (arm_spe_decode gp d).1 = 0 ∧ (arm_spe_decode gp d).1 ≠ 1 := by
  have h0 : (arm_spe_get_next_packet gp { d with record := arm_spe_initial_record }).1 = 0 :=
    gnp_pads_only gp { d with record := arm_spe_initial_record } hpulls hpads
  have hgo : arm_spe_decode gp d
      = arm_spe_get_next_packet gp { d with record := arm_spe_initial_record } :=
    go_done gp { d with record := arm_spe_initial_record } h0.le
  have h : (arm_spe_decode gp d).1 = 0 := by rw [hgo]; exact h0
  exact ⟨h, by rw [h]; norm_num⟩

/-- C8: every decode call first resets the record to its defaults —
context_id to the all-ones sentinel `2^64 - 1`, every other field to 0 —
before any packet is dispatched; and when the call dispatches no Context
packet, the returned state's context_id still equals the sentinel. -/
theorem claim_C8_record_reset (gp : List Nat → Option (Nat × ArmSpePkt))
    (d : ArmSpeDecoder) :
    arm_spe_read_record gp d
        = arm_spe_read_record_go gp { d with record := arm_spe_initial_record } ∧
      arm_spe_initial_record.context_id = 2 ^ 64 - 1 ∧
      arm_spe_initial_record.timestamp = 0 ∧
      arm_spe_initial_record.from_ip = 0 ∧
      arm_spe_initial_record.to_ip = 0 ∧
      arm_spe_initial_record.virt_addr = 0 ∧
      arm_spe_initial_record.phys_addr = 0 ∧
      arm_spe_initial_record.prev_br_tgt = 0 ∧
      arm_spe_initial_record.latency = 0 ∧
      arm_spe_initial_record.op = 0 ∧
      arm_spe_initial_record.type = 0 ∧
      arm_spe_initial_record.source = 0 ∧
      ((∀ p ∈ arm_spe_consumed gp { d with record := arm_spe_initial_record },
          p.type ≠ ArmSpePktType.ARM_SPE_CONTEXT) →
        ((arm_spe_decode gp d).2).record.context_id = 2 ^ 64 - 1) := by
  refine ⟨rfl, rfl, rfl, rfl, rfl, rfl, rfl, rfl, rfl, rfl, rfl, rfl, ?_⟩
  intro hall
  exact go_context_invariant gp (2 ^ 64 - 1)
    { d with record := arm_spe_initial_record }
    (fun p hp hc => absurd hc (hall p hp)) rfl

/-- C9: when the Context packets dispatched by a decode call all carry the
all-ones payload `2^64 - 1` (and at least one such packet is dispatched),
the returned record's context_id equals `2^64 - 1` — exactly the unset
sentinel, so the caller cannot distinguish this from a call that saw no
Context packet. -/
theorem claim_C9_context_all_ones (gp : List Nat → Option (Nat × ArmSpePkt))
    (d : ArmSpeDecoder)
    (hex : ∃ p, p ∈ arm_spe_consumed gp { d with record := arm_spe_initial_record } ∧
      p.type = ArmSpePktType.ARM_SPE_CONTEXT ∧ p.payload = 2 ^ 64 - 1)
    (hall : ∀ p ∈ arm_spe_consumed gp { d with record := arm_spe_initial_record },
      p.type = ArmSpePktType.ARM_SPE_CONTEXT → p.payload = 2 ^ 64 - 1) :
    ((arm_spe_decode gp d).2).record.context_id = 2 ^ 64 - 1 ∧
      ((arm_spe_decode gp d).2).record.context_id
        = arm_spe_initial_record.context_id := by
  have h : ((arm_spe_decode gp d).2).record.context_id = 2 ^ 64 - 1 :=
    go_context_invariant gp (2 ^ 64 - 1)
      { d with record := arm_spe_initial_record } hall rfl
  exact ⟨h, h.trans rfl⟩

/-- A decode call whose first retrieved packet is a Timestamp returns
`RecordReady` with that packet's payload as the record timestamp. -/
theorem decode_timestamp_head (gp : List Nat → Option (Nat × ArmSpePkt))
    (d : ArmSpeDecoder) (n ti tpl : Nat) (hbuf : ¬d.buf = [])
    (hts : gp d.buf = some (n, ⟨ArmSpePktType.ARM_SPE_TIMESTAMP, ti, tpl⟩))
    (hn : ¬n = 0) :
    (arm_spe_decode gp d).1 = 1 ∧
      ((arm_spe_decode gp d).2).record.timestamp = tpl := by
  have hbuf0 : ¬({ d with record := arm_spe_initial_record } : ArmSpeDecoder).buf = [] := hbuf
  have hg : arm_spe_get_next_packet gp { d with record := arm_spe_initial_record }
      = (1, { { d with record := arm_spe_initial_record } with
          buf := ({ d with record := arm_spe_initial_record } : ArmSpeDecoder).buf.drop n,
          packet := ⟨ArmSpePktType.ARM_SPE_TIMESTAMP, ti, tpl⟩ }) :=
    gnp_ok gp { d with record := arm_spe_initial_record } n _ hbuf0 hts hn (by simp)
  constructor
  · show (arm_spe_read_record_go gp { d with record := arm_spe_initial_record }).1 = 1
    rw [arm_spe_read_record_go.eq_def, dif_neg (by rw [hg]; norm_num), hg]
    simp [arm_spe_dispatch]
  · show ((arm_spe_read_record_go gp
        { d with record := arm_spe_initial_record }).2).record.timestamp = tpl
    rw [arm_spe_read_record_go.eq_def, dif_neg (by rw [hg]; norm_num), hg]
    simp [arm_spe_dispatch]

/-- C3: with an undecodable byte at the cursor followed immediately by a
valid Timestamp packet, the first decode call returns `-EBADMSG`
(`MalformedPacket`) having advanced the cursor by exactly one byte (same
source state), and the next decode call on the resulting state returns `1`
(`RecordReady`) with the Timestamp payload as the record timestamp. -/
theorem claim_C3_resync_one_byte (gp : List Nat → Option (Nat × ArmSpePkt))
    (d : ArmSpeDecoder) (n : Nat) (tsp : ArmSpePkt)
    (hlen : 1 < d.buf.length)
    (hfail : gp d.buf = none ∨ ∃ p0, gp d.buf = some (0, p0))
    (hts : gp (d.buf.drop 1) = some (n, tsp)) (hn : n ≠ 0)
    (htt : tsp.type = ArmSpePktType.ARM_SPE_TIMESTAMP) :
    (arm_spe_decode gp d).1 = -EBADMSG ∧
      (arm_spe_decode gp d).2.buf = d.buf.drop 1 ∧
      (arm_spe_decode gp d).2.pulls = d.pulls ∧
      (arm_spe_decode gp (arm_spe_decode gp d).2).1 = 1 ∧
      ((arm_spe_decode gp (arm_spe_decode gp d).2).2).record.timestamp
        = tsp.payload := by
  rcases tsp with ⟨tt, ti, tpl⟩
  cases htt
  have hbuf : ¬d.buf = [] := by
    intro h
    rw [h] at hlen
    simp at hlen
  have hbuf0 : ¬({ d with record := arm_spe_initial_record } : ArmSpeDecoder).buf = [] := hbuf
  have hg1 : arm_spe_get_next_packet gp { d with record := arm_spe_initial_record }
      = (-EBADMSG, { { d with record := arm_spe_initial_record } with
          buf := ({ d with record := arm_spe_initial_record } : ArmSpeDecoder).buf.drop 1 }) :=
    hfail.elim
      (fun hnone => gnp_malformed gp { d with record := arm_spe_initial_record } hbuf0 hnone)
      (fun hzero => hzero.elim
        (fun p0 hp0 => gnp_malformed_zero gp { d with record := arm_spe_initial_record }
          p0 hbuf0 hp0))
  have hdec1 : arm_spe_decode gp d
      = (-EBADMSG, { { d with record := arm_spe_initial_record } with
          buf := ({ d with record := arm_spe_initial_record } : ArmSpeDecoder).buf.drop 1 }) := by
    show arm_spe_read_record_go gp { d with record := arm_spe_initial_record } = _
    rw [go_done gp { d with record := arm_spe_initial_record }
      (by rw [hg1]; norm_num [EBADMSG]), hg1]
  have hdropbuf : ¬(d.buf.drop 1) = [] := by
    intro h
    have := List.drop_eq_nil_iff.mp h
    omega
  have hsecond := decode_timestamp_head gp
    { { d with record := arm_spe_initial_record } with
        buf := ({ d with record := arm_spe_initial_record } : ArmSpeDecoder).buf.drop 1 }
    n ti tpl hdropbuf hts hn
  refine ⟨by rw [hdec1], by rw [hdec1], by rw [hdec1], ?_, ?_⟩
  · rw [hdec1]
    exact hsecond.1
  · rw [hdec1]
    exact hsecond.2

theorem claim_C3_resync_one_byte_witness :
    (arm_spe_decode
        (fun b => if b = [7] then
          some (1, (⟨ArmSpePktType.ARM_SPE_TIMESTAMP, 0, 42⟩ : ArmSpePkt)) else none)
        ⟨[9, 7], [], ⟨ArmSpePktType.ARM_SPE_BAD, 0, 0⟩, arm_spe_initial_record⟩).1
      = -EBADMSG ∧
    (arm_spe_decode
        (fun b => if b = [7] then
          some (1, (⟨ArmSpePktType.ARM_SPE_TIMESTAMP, 0, 42⟩ : ArmSpePkt)) else none)
        ⟨[9, 7], [], ⟨ArmSpePktType.ARM_SPE_BAD, 0, 0⟩, arm_spe_initial_record⟩).2.buf
      = [9, 7].drop 1 ∧
    (arm_spe_decode
        (fun b => if b = [7] then
          some (1, (⟨ArmSpePktType.ARM_SPE_TIMESTAMP, 0, 42⟩ : ArmSpePkt)) else none)
        ⟨[9, 7], [], ⟨ArmSpePktType.ARM_SPE_BAD, 0, 0⟩, arm_spe_initial_record⟩).2.pulls
      = [] ∧
    (arm_spe_decode
        (fun b => if b = [7] then
          some (1, (⟨ArmSpePktType.ARM_SPE_TIMESTAMP, 0, 42⟩ : ArmSpePkt)) else none)
        (arm_spe_decode
          (fun b => if b = [7] then
            some (1, (⟨ArmSpePktType.ARM_SPE_TIMESTAMP, 0, 42⟩ : ArmSpePkt)) else none)
          ⟨[9, 7], [], ⟨ArmSpePktType.ARM_SPE_BAD, 0, 0⟩, arm_spe_initial_record⟩).2).1
      = 1 ∧
    ((arm_spe_decode
        (fun b => if b = [7] then
          some (1, (⟨ArmSpePktType.ARM_SPE_TIMESTAMP, 0, 42⟩ : ArmSpePkt)) else none)
        (arm_spe_decode
          (fun b => if b = [7] then
            some (1, (⟨ArmSpePktType.ARM_SPE_TIMESTAMP, 0, 42⟩ : ArmSpePkt)) else none)
          ⟨[9, 7], [], ⟨ArmSpePktType.ARM_SPE_BAD, 0, 0⟩, arm_spe_initial_record⟩).2).2).record.timestamp
      = 42 :=
  claim_C3_resync_one_byte
    (fun b => if b = [7] then
      some (1, (⟨ArmSpePktType.ARM_SPE_TIMESTAMP, 0, 42⟩ : ArmSpePkt)) else none)
    ⟨[9, 7], [], ⟨ArmSpePktType.ARM_SPE_BAD, 0, 0⟩, arm_spe_initial_record⟩
    1 ⟨ArmSpePktType.ARM_SPE_TIMESTAMP, 0, 42⟩
    (by decide) (Or.inl (by decide)) (by decide) (by decide) rfl

theorem claim_C4_bad_op_class_witness :
    (arm_spe_decode
        (fun b => if b = [3] then
          some (1, (⟨ArmSpePktType.ARM_SPE_OP_TYPE, 7, 0⟩ : ArmSpePkt)) else none)
        ⟨[3], [], ⟨ArmSpePktType.ARM_SPE_BAD, 0, 0⟩, arm_spe_initial_record⟩).1 = -1 ∧
    (arm_spe_decode
        (fun b => if b = [3] then
          some (1, (⟨ArmSpePktType.ARM_SPE_OP_TYPE, 7, 0⟩ : ArmSpePkt)) else none)
        ⟨[3], [], ⟨ArmSpePktType.ARM_SPE_BAD, 0, 0⟩, arm_spe_initial_record⟩).1 ≠ 1 := by
  have hg : arm_spe_get_next_packet
      (fun b => if b = [3] then
        some (1, (⟨ArmSpePktType.ARM_SPE_OP_TYPE, 7, 0⟩ : ArmSpePkt)) else none)
      { (⟨[3], [], ⟨ArmSpePktType.ARM_SPE_BAD, 0, 0⟩,
          arm_spe_initial_record⟩ : ArmSpeDecoder) with record := arm_spe_initial_record }
      = (1, { (⟨[3], [], ⟨ArmSpePktType.ARM_SPE_BAD, 0, 0⟩,
            arm_spe_initial_record⟩ : ArmSpeDecoder) with
          buf := [], packet := ⟨ArmSpePktType.ARM_SPE_OP_TYPE, 7, 0⟩ }) := by
    have h := gnp_ok
      (fun b => if b = [3] then
        some (1, (⟨ArmSpePktType.ARM_SPE_OP_TYPE, 7, 0⟩ : ArmSpePkt)) else none)
      { (⟨[3], [], ⟨ArmSpePktType.ARM_SPE_BAD, 0, 0⟩,
          arm_spe_initial_record⟩ : ArmSpeDecoder) with record := arm_spe_initial_record }
      1 ⟨ArmSpePktType.ARM_SPE_OP_TYPE, 7, 0⟩ (by decide) (by decide) (by decide) (by decide)
    exact h
  have hdisp := dispatch_bad_op_class ⟨ArmSpePktType.ARM_SPE_OP_TYPE, 7, 0⟩
    arm_spe_initial_record rfl (by decide) (by decide) (by decide)
  have hcons : arm_spe_consumed
      (fun b => if b = [3] then
        some (1, (⟨ArmSpePktType.ARM_SPE_OP_TYPE, 7, 0⟩ : ArmSpePkt)) else none)
      { (⟨[3], [], ⟨ArmSpePktType.ARM_SPE_BAD, 0, 0⟩,
          arm_spe_initial_record⟩ : ArmSpeDecoder) with record := arm_spe_initial_record }
      = [⟨ArmSpePktType.ARM_SPE_OP_TYPE, 7, 0⟩] := by
    have h := consumed_ret
      (fun b => if b = [3] then
        some (1, (⟨ArmSpePktType.ARM_SPE_OP_TYPE, 7, 0⟩ : ArmSpePkt)) else none)
      { (⟨[3], [], ⟨ArmSpePktType.ARM_SPE_BAD, 0, 0⟩,
          arm_spe_initial_record⟩ : ArmSpeDecoder) with record := arm_spe_initial_record }
      (-1) arm_spe_initial_record (by rw [hg]; norm_num) (by rw [hg]; exact hdisp)
    rw [h, hg]
  exact claim_C4_bad_op_class
    (fun b => if b = [3] then
      some (1, (⟨ArmSpePktType.ARM_SPE_OP_TYPE, 7, 0⟩ : ArmSpePkt)) else none)
    ⟨[3], [], ⟨ArmSpePktType.ARM_SPE_BAD, 0, 0⟩, arm_spe_initial_record⟩
    ⟨ArmSpePktType.ARM_SPE_OP_TYPE, 7, 0⟩
    (by rw [hcons]; exact List.mem_singleton_self _) rfl (by decide)

theorem claim_C7_pads_then_eos_witness :
    (arm_spe_decode
        (fun b => if b = [] then none
          else some (1, (⟨ArmSpePktType.ARM_SPE_PAD, 0, 0⟩ : ArmSpePkt)))
        ⟨[7, 7], [], ⟨ArmSpePktType.ARM_SPE_BAD, 0, 0⟩, arm_spe_initial_record⟩).1 = 0 ∧
    (arm_spe_decode
        (fun b => if b = [] then none
          else some (1, (⟨ArmSpePktType.ARM_SPE_PAD, 0, 0⟩ : ArmSpePkt)))
        ⟨[7, 7], [], ⟨ArmSpePktType.ARM_SPE_BAD, 0, 0⟩, arm_spe_initial_record⟩).1 ≠ 1 := by
  apply claim_C7_pads_then_eos
  · rfl
  · intro k hk
    refine ⟨1, ⟨ArmSpePktType.ARM_SPE_PAD, 0, 0⟩, ?_, by decide, rfl⟩
    simp only [show (⟨[7, 7], [], ⟨ArmSpePktType.ARM_SPE_BAD, 0, 0⟩,
      arm_spe_initial_record⟩ : ArmSpeDecoder).buf = [7, 7] from rfl] at hk ⊢
    simp at hk
    interval_cases k <;> decide

theorem claim_C8_record_reset_witness :
    ((arm_spe_decode (fun _ => none)
        ⟨[], [], ⟨ArmSpePktType.ARM_SPE_BAD, 0, 0⟩,
          arm_spe_initial_record⟩).2).record.context_id = 2 ^ 64 - 1 := by
  have hg : arm_spe_get_next_packet (fun _ => none)
      { (⟨[], [], ⟨ArmSpePktType.ARM_SPE_BAD, 0, 0⟩,
          arm_spe_initial_record⟩ : ArmSpeDecoder) with record := arm_spe_initial_record }
      = arm_spe_get_data
        { (⟨[], [], ⟨ArmSpePktType.ARM_SPE_BAD, 0, 0⟩,
            arm_spe_initial_record⟩ : ArmSpeDecoder) with record := arm_spe_initial_record } :=
    gnp_empty_done _ _ rfl (by simp [arm_spe_get_data])
  have hcons : arm_spe_consumed (fun _ => none)
      { (⟨[], [], ⟨ArmSpePktType.ARM_SPE_BAD, 0, 0⟩,
          arm_spe_initial_record⟩ : ArmSpeDecoder) with record := arm_spe_initial_record }
      = [] :=
    consumed_done _ _ (by rw [hg]; simp [arm_spe_get_data])
  exact (claim_C8_record_reset (fun _ => none)
    ⟨[], [], ⟨ArmSpePktType.ARM_SPE_BAD, 0, 0⟩, arm_spe_initial_record⟩).2.2.2.2.2.2.2.2.2.2.2.2
    (by rw [hcons]; intro p hp; simp at hp)

theorem claim_C9_context_all_ones_witness :
    ((arm_spe_decode
        (fun b => if b = [5] then
          some (1, (⟨ArmSpePktType.ARM_SPE_CONTEXT, 0, 2 ^ 64 - 1⟩ : ArmSpePkt)) else none)
        ⟨[5], [], ⟨ArmSpePktType.ARM_SPE_BAD, 0, 0⟩,
          arm_spe_initial_record⟩).2).record.context_id = 2 ^ 64 - 1 ∧
    ((arm_spe_decode
        (fun b => if b = [5] then
          some (1, (⟨ArmSpePktType.ARM_SPE_CONTEXT, 0, 2 ^ 64 - 1⟩ : ArmSpePkt)) else none)
        ⟨[5], [], ⟨ArmSpePktType.ARM_SPE_BAD, 0, 0⟩,
          arm_spe_initial_record⟩).2).record.context_id
      = arm_spe_initial_record.context_id := by
  have hg : arm_spe_get_next_packet
      (fun b => if b = [5] then
        some (1, (⟨ArmSpePktType.ARM_SPE_CONTEXT, 0, 2 ^ 64 - 1⟩ : ArmSpePkt)) else none)
      { (⟨[5], [], ⟨ArmSpePktType.ARM_SPE_BAD, 0, 0⟩,
          arm_spe_initial_record⟩ : ArmSpeDecoder) with record := arm_spe_initial_record }
      = (1, { (⟨[5], [], ⟨ArmSpePktType.ARM_SPE_BAD, 0, 0⟩,
            arm_spe_initial_record⟩ : ArmSpeDecoder) with
          buf := [], packet := ⟨ArmSpePktType.ARM_SPE_CONTEXT, 0, 2 ^ 64 - 1⟩ }) := by
    have h := gnp_ok
      (fun b => if b = [5] then
        some (1, (⟨ArmSpePktType.ARM_SPE_CONTEXT, 0, 2 ^ 64 - 1⟩ : ArmSpePkt)) else none)
      { (⟨[5], [], ⟨ArmSpePktType.ARM_SPE_BAD, 0, 0⟩,
          arm_spe_initial_record⟩ : ArmSpeDecoder) with record := arm_spe_initial_record }
      1 ⟨ArmSpePktType.ARM_SPE_CONTEXT, 0, 2 ^ 64 - 1⟩
      (by decide) (by decide) (by decide) (by decide)
    exact h
  have hdisp := dispatch_context 0 (2 ^ 64 - 1) arm_spe_initial_record
  have hcons1 := consumed_cont
    (fun b => if b = [5] then
      some (1, (⟨ArmSpePktType.ARM_SPE_CONTEXT, 0, 2 ^ 64 - 1⟩ : ArmSpePkt)) else none)
    { (⟨[5], [], ⟨ArmSpePktType.ARM_SPE_BAD, 0, 0⟩,
        arm_spe_initial_record⟩ : ArmSpeDecoder) with record := arm_spe_initial_record }
    { arm_spe_initial_record with context_id := 2 ^ 64 - 1 }
    (by rw [hg]; norm_num) (by rw [hg]; exact hdisp)
  have hbufnil : ({ (arm_spe_get_next_packet
      (fun b => if b = [5] then
        some (1, (⟨ArmSpePktType.ARM_SPE_CONTEXT, 0, 2 ^ 64 - 1⟩ : ArmSpePkt)) else none)
      { (⟨[5], [], ⟨ArmSpePktType.ARM_SPE_BAD, 0, 0⟩,
          arm_spe_initial_record⟩ : ArmSpeDecoder) with
        record := arm_spe_initial_record }).2 with
      record := { arm_spe_initial_record with context_id := 2 ^ 64 - 1 } }
      : ArmSpeDecoder).buf = [] := by
    rw [hg]
  have hgd : (arm_spe_get_data
      { (arm_spe_get_next_packet
          (fun b => if b = [5] then
            some (1, (⟨ArmSpePktType.ARM_SPE_CONTEXT, 0, 2 ^ 64 - 1⟩ : ArmSpePkt)) else none)
          { (⟨[5], [], ⟨ArmSpePktType.ARM_SPE_BAD, 0, 0⟩,
              arm_spe_initial_record⟩ : ArmSpeDecoder) with
            record := arm_spe_initial_record }).2 with
        record := { arm_spe_initial_record with context_id := 2 ^ 64 - 1 } }).1 ≤ 0 := by
    rw [hg]
    simp [arm_spe_get_data]
  have hg2 : (arm_spe_get_next_packet
      (fun b => if b = [5] then
        some (1, (⟨ArmSpePktType.ARM_SPE_CONTEXT, 0, 2 ^ 64 - 1⟩ : ArmSpePkt)) else none)
      { (arm_spe_get_next_packet
          (fun b => if b = [5] then
            some (1, (⟨ArmSpePktType.ARM_SPE_CONTEXT, 0, 2 ^ 64 - 1⟩ : ArmSpePkt)) else none)
          { (⟨[5], [], ⟨ArmSpePktType.ARM_SPE_BAD, 0, 0⟩,
              arm_spe_initial_record⟩ : ArmSpeDecoder) with
            record := arm_spe_initial_record }).2 with
        record := { arm_spe_initial_record with context_id := 2 ^ 64 - 1 } }).1 ≤ 0 := by
    rw [gnp_empty_done _ _ hbufnil hgd]
    exact hgd
  have hcons2 := consumed_done
    (fun b => if b = [5] then
      some (1, (⟨ArmSpePktType.ARM_SPE_CONTEXT, 0, 2 ^ 64 - 1⟩ : ArmSpePkt)) else none)
    { (arm_spe_get_next_packet
        (fun b => if b = [5] then
          some (1, (⟨ArmSpePktType.ARM_SPE_CONTEXT, 0, 2 ^ 64 - 1⟩ : ArmSpePkt)) else none)
        { (⟨[5], [], ⟨ArmSpePktType.ARM_SPE_BAD, 0, 0⟩,
            arm_spe_initial_record⟩ : ArmSpeDecoder) with
          record := arm_spe_initial_record }).2 with
      record := { arm_spe_initial_record with context_id := 2 ^ 64 - 1 } } hg2
  have hcons : arm_spe_consumed
      (fun b => if b = [5] then
        some (1, (⟨ArmSpePktType.ARM_SPE_CONTEXT, 0, 2 ^ 64 - 1⟩ : ArmSpePkt)) else none)
      { (⟨[5], [], ⟨ArmSpePktType.ARM_SPE_BAD, 0, 0⟩,
          arm_spe_initial_record⟩ : ArmSpeDecoder) with record := arm_spe_initial_record }
      = [⟨ArmSpePktType.ARM_SPE_CONTEXT, 0, 2 ^ 64 - 1⟩] := by
    rw [hcons1, hcons2, hg]
  exact claim_C9_context_all_ones
    (fun b => if b = [5] then
      some (1, (⟨ArmSpePktType.ARM_SPE_CONTEXT, 0, 2 ^ 64 - 1⟩ : ArmSpePkt)) else none)
    ⟨[5], [], ⟨ArmSpePktType.ARM_SPE_BAD, 0, 0⟩, arm_spe_initial_record⟩
    ⟨⟨ArmSpePktType.ARM_SPE_CONTEXT, 0, 2 ^ 64 - 1⟩,
      by rw [hcons]; exact List.mem_singleton_self _, rfl, rfl⟩
    (by rw [hcons]; intro p hp _; simp at hp; rw [hp]; norm_num)

end ArmSpe
